import Mathlib

/-!
Verification of the Glacier host-provisioning CLI (src/glacier.py) against its
natural-language specification.

The embedding below models the configuration-producing core of glacier.py:

* `create_nginx_conf_content` mirrors the f-string template built by
  `create_nginx_conf` (glacier.py lines 223-269): a fixed HTTP server block,
  followed, when `ssl` is true, by an HTTPS server block referencing the
  domain-keyed certificate paths.  The template is written line by line
  (`http_conf_lines` / `ssl_conf_lines`) and joined with newlines, which
  reproduces the Python multi-line string exactly.
* Side-effecting procedures (`create`, `rebuild`, `setup_ssl`,
  `create_nginx_conf`) are embedded as pure functions returning the ordered
  list of external effects they perform (directory creation, file writes,
  shell commands, console prints).  The `Effect` vocabulary also contains
  constructors for DNS queries, sleeps, signal-handler manipulation and
  random-token generation so that claims about the certificate workflow can
  be stated; glacier.py's code emits none of those effects (its `setup_ssl`,
  lines 303-305, is a placeholder that only prints a message).
* The legacy rewrite-rule translator described by the spec is absent from
  glacier.py; the small parser at the end of the definitions section is
  modelled from the spec and clearly marked as such.
-/

/-- Joins a list of lines with newline separators (no trailing newline). -/
def joinLines : List String → String
  | [] => ""
  | [l] => l
  | l :: ls => l ++ "\n" ++ joinLines ls

/-- Models the Python constant `BASE_DIR = os.path.dirname(os.path.abspath(__file__))`
(glacier.py line 69).  The concrete value is irrelevant to every claim; only the
relative paths built from it matter. -/
def BASE_DIR : String := "/glacier"

/-- Lines of the HTTP (port 80) server block template built by
`create_nginx_conf` (glacier.py lines 224-242).  The Python triple-quoted
f-string opens with a newline and closes with one, hence the leading empty
line here and the explicit trailing newline added in `http_conf`. -/
def http_conf_lines (domain : String) : List String :=
  [ ""
  , "server \x7b"
  , "    listen 80;"
  , "    server_name " ++ domain ++ " www." ++ domain ++ ";"
  , "    root /var/www/html/" ++ domain ++ ";"
  , "    index index.php index.html index.htm;"
  , ""
  , "    location / \x7b"
  , "        try_files $uri $uri/ /index.php?$args;"
  , "    \x7d"
  , ""
  , "    location ~ \\.php$ \x7b"
  , "        fastcgi_pass php8.0:9000;"
  , "        fastcgi_index index.php;"
  , "        include fastcgi_params;"
  , "        fastcgi_param SCRIPT_FILENAME $document_root$fastcgi_script_name;"
  , "    \x7d"
  , "\x7d" ]

/-- Lines of the HTTPS (port 443) server block appended by `create_nginx_conf`
when `ssl` is true (glacier.py lines 244-265). -/
def ssl_conf_lines (domain : String) : List String :=
  [ ""
  , "server \x7b"
  , "    listen 443 ssl http2;"
  , "    server_name " ++ domain ++ " www." ++ domain ++ ";"
  , "    root /var/www/html/" ++ domain ++ ";"
  , "    index index.php index.html index.htm;"
  , ""
  , "    ssl_certificate /etc/letsencrypt/live/" ++ domain ++ "/fullchain.pem;"
  , "    ssl_certificate_key /etc/letsencrypt/live/" ++ domain ++ "/privkey.pem;"
  , ""
  , "    location / \x7b"
  , "        try_files $uri $uri/ /index.php?$args;"
  , "    \x7d"
  , ""
  , "    location ~ \\.php$ \x7b"
  , "        fastcgi_pass php8.0:9000;"
  , "        fastcgi_index index.php;"
  , "        include fastcgi_params;"
  , "        fastcgi_param SCRIPT_FILENAME $document_root$fastcgi_script_name;"
  , "    \x7d"
  , "\x7d" ]

/-- The HTTP server block as one string, exactly as the Python f-string renders. -/
def http_conf (domain : String) : String :=
  joinLines (http_conf_lines domain) ++ "\n"

/-- The HTTPS server block as one string, exactly as the Python f-string renders. -/
def ssl_conf (domain : String) : String :=
  joinLines (ssl_conf_lines domain) ++ "\n"

/-- Content of the configuration written by `create_nginx_conf(domain, ssl)`:
the Python code initialises `conf_content` to the HTTP block and, if `ssl` is
true, appends the HTTPS block (glacier.py lines 224-265). -/
def create_nginx_conf_content (domain : String) (ssl : Bool) : String :=
  let conf := http_conf domain
  if ssl then conf ++ ssl_conf domain else conf

/-- All lines of the configuration produced for `domain` with the given `ssl`
flag (the HTTP block's lines followed by the HTTPS block's lines when present). -/
def confLines (domain : String) (ssl : Bool) : List String :=
  http_conf_lines domain ++ (if ssl then ssl_conf_lines domain else [])

/-- Path the configuration is written to:
`os.path.join(BASE_DIR, 'nginx', f'(domain).conf')` (glacier.py line 267). -/
def nginx_conf_path (domain : String) : String :=
  BASE_DIR ++ "/nginx/" ++ domain ++ ".conf"

/-- External effects the embedded procedures can perform.  glacier.py's
provisioning functions only ever emit `makeDirs`, `writeFile`, `runCmd` and
`printMsg`; the remaining constructors (`dnsQuery`, `sleep`, `setSignal`,
`genRandomToken`) are the effect vocabulary of the certificate workflow the
spec describes, and are emitted by no function of the source. -/
inductive Effect where
  | makeDirs (path : String)
  | writeFile (path : String) (content : String)
  | runCmd (cmd : String)
  | printMsg (msg : String) (style : String)
  | dnsQuery (name : String)
  | sleep (seconds : Nat)
  | setSignal (handler : String)
  | genRandomToken (len : Nat)
  deriving DecidableEq

/-- Effects of `create_nginx_conf(domain, ssl, wildcard)` (glacier.py lines
223-269): it builds the configuration text and writes it to the domain's
conf path.  The `wildcard` parameter is accepted and ignored, as in the source. -/
def create_nginx_conf (domain : String) (ssl : Bool) (_wildcard : Bool := false) :
    List Effect :=
  [ Effect.writeFile (nginx_conf_path domain) (create_nginx_conf_content domain ssl) ]

/-- Effects of `setup_ssl(domain)` (glacier.py lines 303-305): the body is a
placeholder that prints one console message and returns. -/
def setup_ssl (domain : String) : List Effect :=
  [ Effect.printMsg ("SSL setup for " ++ domain ++ " is not implemented in this version.")
      "yellow" ]

/-- Effects of `create(domain, git, skip_ssl)` (glacier.py lines 271-288), in
source order: make the site directory, clone the repository or write the
welcome page, write the configuration with `ssl = not skip_ssl`, run
`setup_ssl` unless `skip_ssl`, bring the stack up, print a success message. -/
def create (domain : String) (git : Option String) (skip_ssl : Bool) : List Effect :=
  [ Effect.makeDirs (BASE_DIR ++ "/sites/" ++ domain) ] ++
  (match git with
   | some url =>
       [ Effect.runCmd ("git clone " ++ url ++ " " ++ BASE_DIR ++ "/sites/" ++ domain) ]
   | none =>
       [ Effect.writeFile (BASE_DIR ++ "/sites/" ++ domain ++ "/index.html")
           ("<h1>Welcome to " ++ domain ++ "</h1>") ]) ++
  create_nginx_conf domain (!skip_ssl) ++
  (if skip_ssl then [] else setup_ssl domain) ++
  [ Effect.runCmd "docker-compose up -d"
  , Effect.printMsg ("Website " ++ domain ++ " created successfully") "bold green" ]

/-- Effects of `rebuild(domain, git, reconfigure_ssl)` (glacier.py lines
290-301), in source order: optionally pull the repository, optionally run
`setup_ssl`, write the configuration with `ssl = True` unconditionally,
rebuild the stack, print a success message. -/
def rebuild (domain : String) (git : Option String) (reconfigure_ssl : Bool) :
    List Effect :=
  (match git with
   | some _ => [ Effect.runCmd ("git -C " ++ BASE_DIR ++ "/sites/" ++ domain ++ " pull") ]
   | none => []) ++
  (if reconfigure_ssl then setup_ssl domain else []) ++
  create_nginx_conf domain true ++
  [ Effect.runCmd "docker-compose up -d --build"
  , Effect.printMsg ("Website " ++ domain ++ " rebuilt successfully") "bold green" ]

/-- File writes (path, content) of an effect trace, in order. -/
def fileWrites : List Effect → List (String × String)
  | [] => []
  | Effect.writeFile p c :: es => (p, c) :: fileWrites es
  | _ :: es => fileWrites es

/-- DNS text-record queries of an effect trace. -/
def dnsQueries : List Effect → List String
  | [] => []
  | Effect.dnsQuery n :: es => n :: dnsQueries es
  | _ :: es => dnsQueries es

/-- Sleep durations of an effect trace. -/
def sleepCalls : List Effect → List Nat
  | [] => []
  | Effect.sleep s :: es => s :: sleepCalls es
  | _ :: es => sleepCalls es

/-- Signal-handler installations and restorations of an effect trace. -/
def signalOps : List Effect → List String
  | [] => []
  | Effect.setSignal h :: es => h :: signalOps es
  | _ :: es => signalOps es

/-- Random-token generations of an effect trace. -/
def tokenGens : List Effect → List Nat
  | [] => []
  | Effect.genRandomToken n :: es => n :: tokenGens es
  | _ :: es => tokenGens es

/-- An effect trace with all console output removed. -/
def nonPrint : List Effect → List Effect
  | [] => []
  | Effect.printMsg _ _ :: es => nonPrint es
  | e :: es => e :: nonPrint es

/-- Tests whether the first list is an initial segment of the second. -/
def listLeads : List Char → List Char → Bool
  | [], _ => true
  | _ :: _, [] => false
  | a :: as, b :: bs => a == b && listLeads as bs

/-- Tests whether `p` is an initial segment of `s`, character-wise. -/
def strLeads (p s : String) : Bool := listLeads p.data s.data

/-- A line belonging to a TLS stanza: an `ssl_certificate` directive or the
`listen 443` directive, at the template's top-level indentation. -/
def isTlsStanzaLine (l : String) : Bool :=
  strLeads "    ssl_certificate" l || strLeads "    listen 443" l

/-- Whether any line of a configuration belongs to a TLS stanza. -/
def hasTlsStanza (lines : List String) : Bool := lines.any isTlsStanzaLine

/-- A line opening a location block, at the template's indentation. -/
def isLocationLine (l : String) : Bool := strLeads "    location " l

/-- A line carrying an `error_page` mapping, at the template's indentation. -/
def isErrorPageLine (l : String) : Bool := strLeads "    error_page" l

/-- A line carrying a rewrite (extension-stripping redirect) directive, at the
template's indentation. -/
def isRewriteDirLine (l : String) : Bool := strLeads "    rewrite" l

/-- A line carrying a `deny` directive (denial of access to the legacy rule
files), at the template's inner indentation. -/
def isDenyLine (l : String) : Bool := strLeads "        deny" l

/-- One translated Rewrite directive: pattern with anchors stripped, target,
and the remaining tokens as an ordered flag list. -/
structure RewriteEntry where
  pattern : String
  target : String
  flags : List String
  deriving DecidableEq

/-- Modelled from the spec: glacier.py contains no legacy rewrite-rule
translator, so anchor stripping follows spec section 4.1 step 2 - the
pattern's leading caret and trailing dollar anchors are stripped. -/
def stripAnchors (p : String) : String :=
  let l := match p.data with
    | '^' :: rest => rest
    | l => l
  let l := if l.getLast? == some '$' then l.dropLast else l
  String.mk l

/-- Modelled from the spec: accumulator for whitespace-separated tokenisation;
splits at space characters and drops empty fragments. -/
def wsTokensAux (cur : List Char) : List Char → List String
  | [] => if cur.isEmpty then [] else [String.mk cur.reverse]
  | c :: rest =>
    if c = ' ' then
      if cur.isEmpty then wsTokensAux [] rest
      else String.mk cur.reverse :: wsTokensAux [] rest
    else wsTokensAux (c :: cur) rest

/-- Modelled from the spec: whitespace-separated tokenisation of a rule line
(spec section 4.1 step 2 speaks of whitespace-separated tokens). -/
def tokenizeRuleLine (line : String) : List String :=
  wsTokensAux [] line.data

/-- Modelled from the spec: glacier.py contains no rule-file parser, so this
follows spec section 4.1 step 2 - a Rewrite line requires at least two further
whitespace-separated tokens (pattern, target); further tokens are an ordered
flag list appended verbatim; malformed Rewrite lines (fewer than required
tokens) are silently skipped; other lines produce no Rewrite entry. -/
def parseRewriteTokens : List String → Option RewriteEntry
  | "Rewrite" :: pat :: tgt :: flags => some ⟨stripAnchors pat, tgt, flags⟩
  | _ => none

/-- Modelled from the spec: parse one rule line into at most one entry. -/
def parseRuleLine (line : String) : Option RewriteEntry :=
  parseRewriteTokens (tokenizeRuleLine line)

/-- Modelled from the spec: translate the lines of a rule file; lines that
parse to nothing are skipped and the translation never fails. -/
def translateRuleLines (ls : List String) : List RewriteEntry :=
  ls.filterMap parseRuleLine

/-! Helper lemmas shared by several claims. -/

/-- A list is an initial segment of itself followed by anything. -/
theorem listLeads_self_append (l x : List Char) : listLeads l (l ++ x) = true := by
  induction l with
  | nil => rfl
  | cons a as ih => simp [listLeads, ih]

/-- A string is an initial segment of itself followed by anything. -/
theorem strLeads_self_append (s t : String) : strLeads s (s ++ t) = true := by
  unfold strLeads
  rw [String.data_append]
  exact listLeads_self_append s.data t.data

/-- Joining a concatenation of two nonempty line lists inserts one newline at
the junction. -/
theorem joinLines_append (A B : List String) (hA : A ≠ []) (hB : B ≠ []) :
    joinLines (A ++ B) = joinLines A ++ "\n" ++ joinLines B := by
  induction A with
  | nil => exact absurd rfl hA
  | cons a A ih =>
    cases A with
    | nil =>
      cases B with
      | nil => exact absurd rfl hB
      | cons b B => simp [joinLines]
    | cons a2 A2 =>
      have h2 := ih (by simp)
      have e1 : joinLines ((a :: a2 :: A2) ++ B) = a ++ "\n" ++ joinLines ((a2 :: A2) ++ B) :=
        rfl
      have e2 : joinLines (a :: a2 :: A2) = a ++ "\n" ++ joinLines (a2 :: A2) := rfl
      rw [e1, h2, e2]
      simp [String.append_assoc]

/-- The TLS-enabled configuration text is the TLS-disabled text followed by
the HTTPS server block. -/
theorem content_true_eq (d : String) :
    create_nginx_conf_content d true = create_nginx_conf_content d false ++ ssl_conf d :=
  rfl

/-- The HTTPS server block is a nonempty string. -/
theorem ssl_conf_data_pos (d : String) : 0 < (ssl_conf d).data.length := by
  unfold ssl_conf
  rw [String.data_append]
  simp

/-- The TLS-disabled and TLS-enabled configuration texts differ. -/
theorem content_ssl_ne (d : String) :
    create_nginx_conf_content d false ≠ create_nginx_conf_content d true := by
  intro h
  have hlen : (create_nginx_conf_content d false).data.length
      = (create_nginx_conf_content d true).data.length := by rw [h]
  rw [content_true_eq d, String.data_append, List.length_append] at hlen
  have := ssl_conf_data_pos d
  omega

/-- The configuration text is exactly its line list joined with newlines, with
a final trailing newline. -/
theorem content_eq_joinLines (d : String) (ssl : Bool) :
    create_nginx_conf_content d ssl = joinLines (confLines d ssl) ++ "\n" := by
  cases ssl with
  | false => simp [create_nginx_conf_content, confLines, http_conf]
  | true =>
    have h := joinLines_append (http_conf_lines d) (ssl_conf_lines d)
      (by simp [http_conf_lines]) (by simp [ssl_conf_lines])
    simp only [create_nginx_conf_content, confLines, http_conf, ssl_conf, if_true]
    rw [h]
    simp [String.append_assoc]

/-- Claim C2: the configuration produced with the TLS flag false contains no
TLS stanza line (no listen-443 directive and no ssl_certificate directive),
and the configuration produced with the TLS flag true contains the
certificate and private-key directives keyed by the domain
(/etc/letsencrypt/live/domain/fullchain.pem and privkey.pem). -/
theorem C2_tls_stanza_iff_flag (d : String) :
    hasTlsStanza (confLines d false) = false ∧
    ("    ssl_certificate /etc/letsencrypt/live/" ++ d ++ "/fullchain.pem;")
      ∈ confLines d true ∧
    ("    ssl_certificate_key /etc/letsencrypt/live/" ++ d ++ "/privkey.pem;")
      ∈ confLines d true := by
  refine ⟨rfl, ?_, ?_⟩ <;> simp [confLines, http_conf_lines, ssl_conf_lines]

/-- Claim C6, amended: the configuration is the fixed HTTP preamble (listen
directive, server name with www alias, document root, index file list,
try-files fallback, PHP request routing) followed by a TLS stanza exactly when
the TLS flag is set; it contains no extension-stripping redirect rule, no
denial-of-access rule, and no error-page mapping, contrary to the original
claim. -/
theorem C6_amended_structure (d : String) (ssl : Bool) :
    create_nginx_conf_content d ssl = http_conf d ++ (if ssl then ssl_conf d else "") ∧
    create_nginx_conf_content d ssl = joinLines (confLines d ssl) ++ "\n" ∧
    "    listen 80;" ∈ confLines d ssl ∧
    ("    server_name " ++ d ++ " www." ++ d ++ ";") ∈ confLines d ssl ∧
    ("    root /var/www/html/" ++ d ++ ";") ∈ confLines d ssl ∧
    "    index index.php index.html index.htm;" ∈ confLines d ssl ∧
    "        try_files $uri $uri/ /index.php?$args;" ∈ confLines d ssl ∧
    "    location ~ \\.php$ \x7b" ∈ confLines d ssl ∧
    hasTlsStanza (confLines d ssl) = ssl ∧
    (confLines d ssl).any isErrorPageLine = false ∧
    (confLines d ssl).any isRewriteDirLine = false ∧
    (confLines d ssl).any isDenyLine = false := by
  refine ⟨?_, content_eq_joinLines d ssl, ?_, ?_, ?_, ?_, ?_, ?_, ?_, ?_, ?_, ?_⟩
  · cases ssl with
    | false => simp [create_nginx_conf_content, String.append_empty]
    | true => rfl
  all_goals cases ssl
  all_goals first
    | rfl
    | simp [confLines, http_conf_lines, ssl_conf_lines]

/-- Claim C6, counterexample to the original claim: for the concrete domain
example.com the configuration contains no error-page mapping, no
extension-stripping redirect rule, and no denial-of-access rule, although the
claim asserts the preamble contains all three. -/
theorem C6_counterexample :
    (confLines "example.com" false).any isErrorPageLine = false ∧
    (confLines "example.com" false).any isRewriteDirLine = false ∧
    (confLines "example.com" false).any isDenyLine = false := ⟨rfl, rfl, rfl⟩

/-- Claim C7: the configuration contains no location blocks beyond the two
fixed boilerplate ones per server block (the root block and the PHP routing
block); in particular a site root with zero legacy rule files contributes no
location blocks, since the source derives the configuration from the domain
and the TLS flag alone. -/
theorem C7_no_location_blocks_beyond_boilerplate (d : String) (ssl : Bool) :
    (confLines d ssl).filter isLocationLine =
      (if ssl then
        ["    location / \x7b", "    location ~ \\.php$ \x7b",
         "    location / \x7b", "    location ~ \\.php$ \x7b"]
       else ["    location / \x7b", "    location ~ \\.php$ \x7b"]) := by
  cases ssl <;> rfl

/-- Claim C9: the TLS-enabled configuration text is the TLS-disabled text
followed by the HTTPS server block, so the TLS-disabled text is an initial
segment of the TLS-enabled one. -/
theorem C9_tls_conf_extends_http_conf (d : String) :
    create_nginx_conf_content d true = create_nginx_conf_content d false ++ ssl_conf d ∧
    strLeads (create_nginx_conf_content d false) (create_nginx_conf_content d true) = true := by
  refine ⟨content_true_eq d, ?_⟩
  rw [content_true_eq d]
  exact strLeads_self_append _ _

/-- Claim C1, counterexample to the original claim: create("example.com",
skip_ssl=False) writes a TLS-enabled configuration while its effect trace
contains no DNS query, no token generation and no sleep - no challenge for the
domain is ever verified, yet the TLS flag of the written configuration is
true. -/
theorem C1_counterexample :
    (nginx_conf_path "example.com", create_nginx_conf_content "example.com" true)
      ∈ fileWrites (create "example.com" none false) ∧
    hasTlsStanza (confLines "example.com" true) = true ∧
    dnsQueries (create "example.com" none false) = [] ∧
    tokenGens (create "example.com" none false) = [] ∧
    sleepCalls (create "example.com" none false) = [] := by
  refine ⟨?_, rfl, rfl, rfl, rfl⟩
  simp [create, create_nginx_conf, setup_ssl, fileWrites]

/-- Claim C1, amended: create with skip_ssl=false and rebuild always write the
TLS-enabled configuration for the domain, unconditionally; no challenge
verification, DNS query or issuance step gates the TLS flag (setup_ssl only
prints a message). -/
theorem C1_amended_tls_unconditional (d : String) (git : Option String) (r : Bool) :
    (nginx_conf_path d, create_nginx_conf_content d true)
      ∈ fileWrites (create d git false) ∧
    (nginx_conf_path d, create_nginx_conf_content d true)
      ∈ fileWrites (rebuild d git r) ∧
    dnsQueries (create d git false) = [] ∧
    dnsQueries (rebuild d git r) = [] ∧
    tokenGens (create d git false) = [] := by
  refine ⟨?_, ?_, ?_, ?_, ?_⟩ <;> cases git <;> cases r <;>
    simp [create, rebuild, create_nginx_conf, setup_ssl, fileWrites, dnsQueries, tokenGens]

/-- Claim C3, counterexample to the original claim: no DNS polling attempt is
ever made (zero attempts, not ten; no 30-second sleeps), and in that
no-matching-record situation the configuration written by rebuild for
example.com still has TLS enabled rather than disabled. -/
theorem C3_counterexample :
    dnsQueries (rebuild "example.com" none true) = [] ∧
    sleepCalls (rebuild "example.com" none true) = [] ∧
    fileWrites (rebuild "example.com" none true) =
      [(nginx_conf_path "example.com", create_nginx_conf_content "example.com" true)] ∧
    hasTlsStanza (confLines "example.com" true) = true := ⟨rfl, rfl, rfl, rfl⟩

/-- Claim C3, amended: the certificate workflow performs no DNS polling at
all - setup_ssl makes zero text-record lookup attempts, sleeps zero times, and
its only effect is printing the fixed not-implemented message. -/
theorem C3_amended_no_polling (d : String) :
    setup_ssl d =
      [Effect.printMsg ("SSL setup for " ++ d ++ " is not implemented in this version.")
        "yellow"] ∧
    dnsQueries (setup_ssl d) = [] ∧
    sleepCalls (setup_ssl d) = [] := ⟨rfl, rfl, rfl⟩

/-- Claim C4, counterexample to the original claim: setup_ssl for example.com
performs no signal-handler operation at all, so the original interrupt handler
is restored zero times, not exactly once, and no acknowledgment wait exists
whose end could be observed. -/
theorem C4_counterexample :
    signalOps (setup_ssl "example.com") = [] ∧
    (signalOps (setup_ssl "example.com")).length ≠ 1 := by
  exact ⟨rfl, by decide⟩

/-- Claim C4, amended: setup_ssl contains no acknowledgment wait and never
saves, overrides or restores an interrupt-signal handler; it prints one
message and returns immediately. -/
theorem C4_amended_no_signal_handling (d : String) :
    signalOps (setup_ssl d) = [] ∧
    sleepCalls (setup_ssl d) = [] ∧
    setup_ssl d =
      [Effect.printMsg ("SSL setup for " ++ d ++ " is not implemented in this version.")
        "yellow"] := ⟨rfl, rfl, rfl⟩

/-- Claim C5, counterexample to the original claim: setup_ssl for example.com
generates zero random challenge tokens (not one 32-character token), and the
only thing displayed to the operator is the fixed not-implemented message,
with no token and no deadline. -/
theorem C5_counterexample :
    tokenGens (setup_ssl "example.com") = [] ∧
    (tokenGens (setup_ssl "example.com")).length ≠ 1 ∧
    setup_ssl "example.com" =
      [Effect.printMsg "SSL setup for example.com is not implemented in this version."
        "yellow"] := by
  refine ⟨rfl, by decide, by decide⟩

/-- Claim C5, amended: entering SSL setup generates no challenge token and
displays no deadline; the operator is shown only the fixed not-implemented
message. -/
theorem C5_amended_no_token (d : String) :
    tokenGens (setup_ssl d) = [] ∧
    setup_ssl d =
      [Effect.printMsg ("SSL setup for " ++ d ++ " is not implemented in this version.")
        "yellow"] := ⟨rfl, rfl⟩

/-- Claim C10, counterexample to the original claim: with console output
removed, create("example.com", skip_ssl=True) and create("example.com",
skip_ssl=False) produce different effect traces - the written configuration
differs (TLS stanza present or absent) - so create does not behave identically
apart from the setup_ssl message. -/
theorem C10_counterexample :
    nonPrint (create "example.com" none true) ≠ nonPrint (create "example.com" none false) := by
  intro h
  simp [create, create_nginx_conf, setup_ssl, nonPrint] at h
  exact content_ssl_ne "example.com" h

/-- Claim C10, amended: setup_ssl changes no state - it writes no files,
issues no DNS queries, and its only effect is one console message - and
rebuild behaves identically with and without reconfigure_ssl apart from that
message; create, however, additionally changes the TLS flag of the written
configuration when skip_ssl is set, so its behaviour differs beyond the
message. -/
theorem C10_amended_setup_ssl_message_only (d : String) (git : Option String) :
    fileWrites (setup_ssl d) = [] ∧
    dnsQueries (setup_ssl d) = [] ∧
    nonPrint (setup_ssl d) = [] ∧
    nonPrint (rebuild d git true) = nonPrint (rebuild d git false) ∧
    nonPrint (create d git true) ≠ nonPrint (create d git false) := by
  refine ⟨rfl, rfl, rfl, ?_, ?_⟩
  · cases git <;> rfl
  · intro h
    cases git with
    | none =>
      simp [create, create_nginx_conf, setup_ssl, nonPrint] at h
      exact content_ssl_ne d h
    | some url =>
      simp [create, create_nginx_conf, setup_ssl, nonPrint] at h
      exact content_ssl_ne d h

/-- Claim C8: a Rewrite line with fewer than two further whitespace-separated
tokens produces no entry, and translation of such a line is an ordinary total
computation returning the empty entry list (no exception). -/
theorem C8_malformed_rewrite_skipped (line : String) (rest : List String)
    (htok : tokenizeRuleLine line = "Rewrite" :: rest) (hlen : rest.length < 2) :
    parseRuleLine line = none ∧ translateRuleLines [line] = [] := by
  have hparse : parseRuleLine line = none := by
    unfold parseRuleLine
    rw [htok]
    match rest, hlen with
    | [], _ => rfl
    | [x], _ => rfl
  exact ⟨hparse, by simp [translateRuleLines, hparse]⟩

/-- Witness for claim C8: the malformed line `Rewrite ^/old$` (a Rewrite
keyword with a single further token) tokenizes to two tokens and is skipped. -/
theorem C8_malformed_rewrite_skipped_witness :
    parseRuleLine "Rewrite ^/old$" = none ∧
    translateRuleLines ["Rewrite ^/old$"] = [] :=
  C8_malformed_rewrite_skipped "Rewrite ^/old$" ["^/old$"] (by decide) (by decide)
